import Mathlib

/-!
Shallow embedding of the Smart Witness ESP32-CAM firmware
(`src/smart_witness_single_file.ino`): the device lifecycle controller,
provisioning intake validator, command router, editing-session state
machine and the Telegram delivery reliability layer.

Modelling conventions:
* C `char[N]` string fields are modelled as `String`; every `strncpy`
  into a buffer of size `N` is modelled as truncation to `N - 1`
  characters (`strTake (N-1)`).  String lengths are measured in
  characters (the firmware measures bytes; all claims are about ASCII
  data where the two coincide).
* `millis()` time is a `Nat` field `now`; `delay(d)` adds `d` to `now`.
  The firmware's unsigned 32-bit tick subtraction is wrap-correct, so
  unbounded `Nat` time with the invariant `lastMessageTime ≤ now` is
  observationally equivalent.
* `configVersion` is a `uint32_t`: increments are taken `% 2^32`.
* The one-shot Telegram transport (`bot->sendMessage`, each single
  attempt) is modelled by a stream of attempt results
  `transport : List Bool`; an exhausted stream yields failure.
* Outbound replies are recorded in `outbox` (chat id, text); BLE status
  notifications in `bleStatus`; `saveConfig` bumps `saveCount` and
  stores the snapshot in `persisted`; `ESP.restart()` sets
  `restartRequested`.
-/

namespace SmartWitness

/-- The `SystemState` enumeration of the firmware. -/
inductive SystemState where
  | NEED_CONFIG
  | BLE_CONFIG_PHASE
  | PIN_CONFIG_PHASE
  | GROUP_WAIT_PHASE
  | NORMAL_OPERATION
deriving DecidableEq, Repr

/-- `struct SmartWitnessConfig`.  The three-element WiFi arrays are
unrolled into indexed fields. -/
structure SmartWitnessConfig where
  deviceName : String
  friendlyName : String
  devicePIN : String
  wifiSSID0 : String
  wifiSSID1 : String
  wifiSSID2 : String
  wifiPassword0 : String
  wifiPassword1 : String
  wifiPassword2 : String
  telegramToken : String
  telegramUser : String
  personalChatId : String
  familiarChatId : String
  vecinalChatId : String
  alertMsg : String
  isConfigured : Bool
  pinConfigured : Bool
  configVersion : Nat
deriving DecidableEq, Repr

/-- `struct TelegramStatistics`. -/
structure TelegramStatistics where
  totalMessagesSent : Nat
  totalFailedSends : Nat
  lastSuccessfulSend : Nat
  lastErrorTime : Nat
  lastError : String
  pollCount : Nat
  commandsProcessed : Nat
deriving DecidableEq, Repr

/-- The global mutable state of the firmware relevant to the core:
configuration, lifecycle state, editing-session variables, statistics,
delivery-layer timing, and the externally observable effect logs. -/
structure SysState where
  config : SmartWitnessConfig
  currentState : SystemState
  editingMode : Bool
  editingField : String
  editingChatID : String
  pendingEditValue : String
  editingStartTime : Nat
  stats : TelegramStatistics
  lastMessageTime : Nat
  now : Nat
  botInit : Bool
  transport : List Bool
  cameraFrame : Bool
  outbox : List (String × String)
  bleStatus : List String
  saveCount : Nat
  persisted : Option SmartWitnessConfig
  restartRequested : Bool
  bleStarted : Bool
  bleConfigStartTime : Nat
deriving DecidableEq, Repr

/-- `MESSAGE_INTERVAL` (ms). -/
def MESSAGE_INTERVAL : Nat := 1500

/-- `EDITING_TIMEOUT` (ms). -/
def EDITING_TIMEOUT : Nat := 300000

/-- `2^32`, the modulus of `uint32_t configVersion`. -/
def UINT32_MOD : Nat := 4294967296

/-- `strncpy(dst, src, cap)` into a buffer of size `cap + 1`:
keeps the first `cap` characters. -/
def strTake (cap : Nat) (s : String) : String :=
  String.mk (s.toList.take cap)

/-- Check that `p` is an initial segment of `s` (char lists). -/
def listIsInit : List Char → List Char → Bool
  | [], _ => true
  | _ :: _, [] => false
  | a :: as, b :: bs => a == b && listIsInit as bs

/-- `String.startsWith` of the firmware, on the char-list model. -/
def strHasStart (s p : String) : Bool :=
  listIsInit p.toList s.toList

/-- Split a char list at the first `','`: text before, and the rest
after the comma when one exists (`String.indexOf(',')` semantics). -/
def firstCommaSplit : List Char → List Char × Option (List Char)
  | [] => ([], none)
  | c :: rest =>
    if c = ',' then ([], some rest)
    else
      let r := firstCommaSplit rest
      (c :: r.1, r.2)

/-- `extractCommand`: the message up to the first comma
(the whole message when there is no comma). -/
def extractCommand (message : String) : String :=
  String.mk (firstCommaSplit message.toList).1

/-- `extractDeviceName`: everything after the first comma
(empty when there is no comma). -/
def extractDeviceName (message : String) : String :=
  match (firstCommaSplit message.toList).2 with
  | none => ""
  | some rest => String.mk rest

/-- `getChatType`: exact match of the caller's chat id against the
three configured endpoints, in the order personal, familiar, vecinal. -/
def getChatType (c : SmartWitnessConfig) (chat_id : String) : String :=
  if chat_id = c.personalChatId then "personal"
  else if chat_id = c.familiarChatId then "familiar"
  else if chat_id = c.vecinalChatId then "vecinal"
  else "unknown"

/-- `getCurrentChatId` (returns the personal chat id). -/
def getCurrentChatId (c : SmartWitnessConfig) : String :=
  c.personalChatId

/-- `hasValidConfig`: the firmware's operation-validity check, with the
same accumulate-into-`valid` structure (the 3-network loop unrolled). -/
def hasValidConfig (c : SmartWitnessConfig) : Bool :=
  let valid0 := true
  let valid1 := if c.deviceName.length = 0 then false else valid0
  let valid2 := if c.devicePIN.length ≠ 3 then false else valid1
  let hasWiFi :=
    if c.wifiSSID0.length > 0 then true
    else if c.wifiSSID1.length > 0 then true
    else if c.wifiSSID2.length > 0 then true
    else false
  let valid3 := if hasWiFi = false then false else valid2
  let valid4 := if c.telegramToken.length < 40 then false else valid3
  let valid5 := if c.personalChatId.length = 0 then false else valid4
  valid5

/-- `getFieldName`. -/
def getFieldName (field : String) : String :=
  if field = "edit_name" then "Device Name"
  else if field = "edit_ssid1" then "WiFi Network 1"
  else if field = "edit_ssid2" then "WiFi Network 2"
  else if field = "edit_ssid3" then "WiFi Network 3"
  else if field = "edit_telegram" then "Telegram Token"
  else if field = "edit_alert" then "Alert Message"
  else if field = "edit_familiar" then "Family Chat ID"
  else if field = "edit_vecinal" then "Neighborhood Chat ID"
  else "Unknown Field"

/-- `getCurrentConfigValue`. -/
def getCurrentConfigValue (c : SmartWitnessConfig) (field : String) : String :=
  if field = "edit_name" then c.friendlyName
  else if field = "edit_ssid1" then c.wifiSSID0
  else if field = "edit_ssid2" then c.wifiSSID1
  else if field = "edit_ssid3" then c.wifiSSID2
  else if field = "edit_telegram" then strTake 10 c.telegramToken ++ "..."
  else if field = "edit_alert" then c.alertMsg
  else if field = "edit_familiar" then c.familiarChatId
  else if field = "edit_vecinal" then c.vecinalChatId
  else "Unknown field"

/-- `getEditPrompt` (free text abbreviated; structure as in the code). -/
def getEditPrompt (field currentValue : String) : String :=
  "✏️ Edit " ++ getFieldName field ++ "\n\n📄 Current value: " ++ currentValue ++ "\n\n"
    ++ (if field = "edit_name" then "📝 Enter new device name"
        else if strHasStart field "edit_ssid" then "📡 Enter WiFi network name (SSID)"
        else if field = "edit_telegram" then "🤖 Enter new Telegram bot token"
        else if field = "edit_alert" then "🚨 Enter new alert message"
        else if field = "edit_familiar" then "👨‍👩‍👧‍👦 Enter family group chat ID"
        else if field = "edit_vecinal" then "🏘️ Enter neighborhood group chat ID"
        else "")

/-- `getCancelKeyboard`. -/
def getCancelKeyboard (c : SmartWitnessConfig) : String :=
  "[[\x7b\"text\":\"❌ Cancel\",\"callback_data\":\"/cancel," ++ c.deviceName ++ "\"\x7d]]"

/-- `getMainMenuKeyboard` (JSON markup abbreviated to the role-dependent shape). -/
def getMainMenuKeyboard (c : SmartWitnessConfig) : String :=
  let chatType := getChatType c (getCurrentChatId c)
  if chatType = "personal" then "[[photo,status],[config,restart],[menu,info]]"
  else "[[photo,status],[menu,info]]"

/-- `getConfigKeyboard` (JSON markup abbreviated). -/
def getConfigKeyboard (c : SmartWitnessConfig) : String :=
  "[[edit_name,edit_ssid1],[edit_ssid2,edit_ssid3],[edit_telegram,edit_alert],[edit_familiar,edit_vecinal],[save_restart,cancel]]" ++ c.deviceName

/-- `resetEditingState`. -/
def resetEditingState (st : SysState) : SysState :=
  { st with
    editingMode := false, editingField := "", editingChatID := "",
    pendingEditValue := "", editingStartTime := 0 }

/-- `saveConfig` (persist path; SPIFFS write modelled as succeeding). -/
def saveConfigM (st : SysState) : SysState :=
  { st with saveCount := st.saveCount + 1, persisted := some st.config }

/-- `updateBLEStatus`: notify a value on the BLE status channel. -/
def updateBLEStatus (st : SysState) (status : String) : SysState :=
  { st with bleStatus := st.bleStatus ++ [status] }

/-- One transport attempt: pop the next result from the stream
(an exhausted stream fails). -/
def popTransport : List Bool → Bool × List Bool
  | [] => (false, [])
  | b :: rest => (b, rest)

/-- Result of the retry loop inside `safeSendMessage`. -/
structure SendLoopResult where
  success : Bool
  attempts : Nat
  endTime : Nat
  transportLeft : List Bool
  waits : List Nat
deriving DecidableEq, Repr

/-- The retry loop of `safeSendMessage`:
`while (retries < MAX_TELEGRAM_RETRIES && !success) { if (retries > 0) delay(500 * retries); attempt; retries++; }`.
`fuel` is the number of retries still allowed (`MAX - retryIdx`). -/
def sendLoop : Nat → Nat → List Bool → Nat → SendLoopResult
  | 0, _, tr, now => ⟨false, 0, now, tr, []⟩
  | fuel + 1, retryIdx, tr, now =>
    let wait := 500 * retryIdx
    let now1 := now + wait
    let p := popTransport tr
    let waitsHere : List Nat := if retryIdx = 0 then [] else [wait]
    if p.1 then ⟨true, 1, now1, p.2, waitsHere⟩
    else
      let r := sendLoop fuel (retryIdx + 1) p.2 now1
      ⟨r.success, r.attempts + 1, r.endTime, r.transportLeft, waitsHere ++ r.waits⟩

/-- The rate-limiting prologue of `safeSendMessage`:
`if (millis() - lastMessageTime < MESSAGE_INTERVAL) delay(MESSAGE_INTERVAL - (millis() - lastMessageTime));`. -/
def rateLimitWait (st : SysState) : SysState :=
  if st.now - st.lastMessageTime < MESSAGE_INTERVAL then
    { st with now := st.now + (MESSAGE_INTERVAL - (st.now - st.lastMessageTime)) }
  else st

/-- Result of one `safeSendMessage` call: the new state, the returned
Bool, and the attempt/backoff trace of the retry loop. -/
structure SendOutcome where
  st : SysState
  ok : Bool
  attempts : Nat
  waits : List Nat
deriving DecidableEq, Repr

/-- `safeSendMessage(chat_id, message, keyboard)`: null-bot guard, rate
limiting, up to 3 transport attempts with `500ms × retries` backoff,
then the success/failure accounting. -/
def safeSendMessage (st : SysState) (chat_id message _keyboard : String) : SendOutcome :=
  if st.botInit = false then ⟨st, false, 0, []⟩
  else
    let st1 := rateLimitWait st
    let r := sendLoop 3 0 st1.transport st1.now
    let st2 := { st1 with
      now := r.endTime, transport := r.transportLeft,
      outbox := st1.outbox ++ [(chat_id, message)] }
    if r.success then
      ⟨{ st2 with
          lastMessageTime := r.endTime,
          stats := { st2.stats with
            totalMessagesSent := st2.stats.totalMessagesSent + 1,
            lastSuccessfulSend := r.endTime } }, true, r.attempts, r.waits⟩
    else
      ⟨{ st2 with
          stats := { st2.stats with
            totalFailedSends := st2.stats.totalFailedSends + 1,
            lastError := "Message send failure to " ++ chat_id,
            lastErrorTime := r.endTime } }, false, r.attempts, r.waits⟩

/-- `safeSendMessage` used for its state effect only. -/
def sendMsg (st : SysState) (chat_id message keyboard : String) : SysState :=
  (safeSendMessage st chat_id message keyboard).st

/-- The status report text of `sendStatus` (runtime network values and
free text abbreviated; built from the same state fields). -/
def statusText (st : SysState) : String :=
  "📊 Smart Witness Status\n\n🔧 Device: " ++ st.config.friendlyName
    ++ "\n🆔 ID: " ++ st.config.deviceName
    ++ "\n📨 Messages Sent: " ++ toString st.stats.totalMessagesSent
    ++ "\n❌ Failed Sends: " ++ toString st.stats.totalFailedSends
    ++ "\n🔄 Poll Count: " ++ toString st.stats.pollCount
    ++ "\n⚙️ Commands Processed: " ++ toString st.stats.commandsProcessed
    ++ (if st.stats.lastError.length > 0 then "\n⚠️ Last Error: " ++ st.stats.lastError else "")

/-- `sendStatus`. -/
def sendStatus (st : SysState) (chat_id : String) : SysState :=
  sendMsg st chat_id (statusText st) ""

/-- `sendMainMenu`. -/
def sendMainMenu (st : SysState) (chat_id : String) : SysState :=
  let chatType := getChatType st.config chat_id
  let message := "📋 Main Menu - " ++ st.config.friendlyName ++ "\n\n"
    ++ (if chatType = "personal" then "🔓 Full access available - All commands enabled"
        else if chatType = "familiar" then "👨‍👩‍👧‍👦 Family group access - Photos and status only"
        else if chatType = "vecinal" then "🏘️ Neighborhood alert access - Limited functionality"
        else "❓ Unknown chat type - Limited access")
  sendMsg st chat_id message (getMainMenuKeyboard st.config)

/-- The access-denial reply of `sendConfigMenu` and `startEditMode`. -/
def configDenialText : String :=
  "❌ Configuration only available in personal chat\n\nSecurity policy restricts configuration access to the device owner only."

/-- `sendConfigMenu`: owner-only configuration menu. -/
def sendConfigMenu (st : SysState) (chat_id : String) : SysState :=
  if getChatType st.config chat_id ≠ "personal" then
    sendMsg st chat_id configDenialText ""
  else
    let message := "⚙️ Configuration Menu\n\nCurrent settings for: " ++ st.config.friendlyName
      ++ "\nDevice ID: " ++ st.config.deviceName
      ++ "\nConfig Version: " ++ toString st.config.configVersion
      ++ "\n\nSelect an option to configure:"
    sendMsg st chat_id message (getConfigKeyboard st.config)

/-- `startEditMode(field, chat_id)`: owner-only; opens the editing
session and sends the current-value prompt. -/
def startEditMode (st : SysState) (field chat_id : String) : SysState :=
  if getChatType st.config chat_id ≠ "personal" then
    sendMsg st chat_id configDenialText ""
  else
    let st1 := { st with
      editingMode := true, editingField := field, editingChatID := chat_id,
      editingStartTime := st.now, pendingEditValue := "" }
    let currentValue := getCurrentConfigValue st1.config field
    sendMsg st1 chat_id (getEditPrompt field currentValue) (getCancelKeyboard st1.config)

/-- `showEditConfirmation(newValue, field, chat_id)`: stores the pending
value and renders the current/new diff with confirm/cancel buttons. -/
def showEditConfirmation (st : SysState) (newValue field chat_id : String) : SysState :=
  let currentValue := getCurrentConfigValue st.config field
  let message := "✏️ Confirm Configuration Change\n\n🔧 Field: " ++ getFieldName field
    ++ "\n📄 Current: " ++ currentValue ++ "\n🆕 New: " ++ newValue
    ++ "\n\n⚠️ This change will be applied immediately.\nConfirm this change?"
  let st1 := { st with pendingEditValue := newValue }
  let keyboard := "[[\x7b\"text\":\"✅ Confirm\",\"callback_data\":\"/confirm_edit,"
    ++ st1.config.deviceName ++ "\"\x7d,\x7b\"text\":\"❌ Cancel\",\"callback_data\":\"/cancel,"
    ++ st1.config.deviceName ++ "\"\x7d]]"
  sendMsg st1 chat_id message keyboard

/-- The field-dispatch chain of `confirmEdit` (each branch is the
`strncpy` into the corresponding buffer); `none` is `success = false`. -/
def applyEditField (c : SmartWitnessConfig) (field value : String) : Option SmartWitnessConfig :=
  if field = "edit_name" then some { c with friendlyName := strTake 63 value }
  else if field = "edit_ssid1" then some { c with wifiSSID0 := strTake 63 value }
  else if field = "edit_ssid2" then some { c with wifiSSID1 := strTake 63 value }
  else if field = "edit_ssid3" then some { c with wifiSSID2 := strTake 63 value }
  else if field = "edit_telegram" then some { c with telegramToken := strTake 127 value }
  else if field = "edit_alert" then some { c with alertMsg := strTake 99 value }
  else if field = "edit_familiar" then some { c with familiarChatId := strTake 31 value }
  else if field = "edit_vecinal" then some { c with vecinalChatId := strTake 31 value }
  else none

/-- `confirmEdit(chat_id)`: session/endpoint guard, pending-value guard,
field application, version bump, persist, success reply, session reset,
`delay(1000)`, and re-rendering of the configuration menu. -/
def confirmEdit (st : SysState) (chat_id : String) : SysState :=
  if st.editingMode = false ∨ st.editingChatID ≠ chat_id then
    sendMsg st chat_id "❌ No active editing session\n\nPlease start a configuration edit first." ""
  else if st.pendingEditValue.length = 0 then
    sendMsg st chat_id "❌ No pending changes to confirm" ""
  else
    let fieldName := getFieldName st.editingField
    match applyEditField st.config st.editingField st.pendingEditValue with
    | some c1 =>
      let c2 := { c1 with configVersion := (c1.configVersion + 1) % UINT32_MOD }
      let st1 := { st with config := c2 }
      let st2 := saveConfigM st1
      let st3 := sendMsg st2 chat_id
        ("✅ Configuration updated successfully!\n\n📝 " ++ fieldName
          ++ " has been changed to: " ++ st.pendingEditValue ++ "\n\n💾 Configuration saved.") ""
      let st4 := resetEditingState st3
      let st5 := { st4 with now := st4.now + 1000 }
      sendConfigMenu st5 chat_id
    | none =>
      let st1 := sendMsg st chat_id
        ("❌ Failed to update configuration\n\nUnknown field: " ++ st.editingField) ""
      resetEditingState st1

/-- `cancelEdit(chat_id)`. -/
def cancelEdit (st : SysState) (chat_id : String) : SysState :=
  if st.editingMode = false ∨ st.editingChatID ≠ chat_id then
    sendMsg st chat_id "❌ No active editing session" ""
  else
    let fieldName := getFieldName st.editingField
    let st1 := resetEditingState st
    let st2 := sendMsg st1 chat_id
      ("❌ Edit cancelled\n\n🔄 No changes were made to " ++ fieldName ++ ".") ""
    let st3 := { st2 with now := st2.now + 500 }
    sendConfigMenu st3 chat_id

/-- `takePhoto(chat_id)`: progress reply, flash delay, capture
(`cameraFrame`), single-attempt photo upload, caption or failure reply. -/
def takePhoto (st : SysState) (chat_id : String) : SysState :=
  let st1 := sendMsg st chat_id "📸 Taking photo...\n\n⏳ Please wait while I capture the image." ""
  let st2 := { st1 with now := st1.now + 200 }
  if st2.cameraFrame = false then
    let st3 := sendMsg st2 chat_id "❌ Failed to capture photo\n\n🔧 Camera may be busy or hardware issue detected. Please try again." ""
    { st3 with stats := { st3.stats with totalFailedSends := st3.stats.totalFailedSends + 1 } }
  else
    let p := popTransport st2.transport
    let st3 := { st2 with transport := p.2 }
    if p.1 then
      let st4 := sendMsg st3 chat_id ("📷 " ++ st3.config.friendlyName ++ " - photo caption\n⚙️ Device: " ++ st3.config.deviceName) ""
      { st4 with stats := { st4.stats with totalMessagesSent := st4.stats.totalMessagesSent + 1 } }
    else
      let st4 := sendMsg st3 chat_id "❌ Failed to send photo\n\n📡 Network issue or file too large. Please check connection and try again." ""
      { st4 with stats := { st4.stats with totalFailedSends := st4.stats.totalFailedSends + 1 } }

/-- The `/info` reply text (static parts abbreviated). -/
def infoText (st : SysState) (chat_id : String) : String :=
  "ℹ️ Smart Witness Information\n\n🔧 Device: " ++ st.config.friendlyName
    ++ "\n🆔 ID: " ++ st.config.deviceName
    ++ "\n📱 Chat Type: " ++ getChatType st.config chat_id

/-- The role-filtered help text of the unknown-command branch. -/
def helpText (st : SysState) (command chat_id : String) : String :=
  "❓ Unknown command: " ++ command
    ++ "\n\n📋 Available commands:\n📷 /photo - Take a photo\n📊 /status - System status\n📋 /menu - Main menu\nℹ️ /info - Device information\n"
    ++ (if getChatType st.config chat_id = "personal" then
          "⚙️ /config - Configuration menu\n🔄 /restart - Restart device\n"
        else "")

/-- `handleExactCommands(message, chat_id)`: device-identity
disambiguation guard, then the command dispatch chain. -/
def handleExactCommands (st : SysState) (message chat_id : String) : SysState :=
  let command := extractCommand message
  let deviceName := extractDeviceName message
  if deviceName ≠ st.config.deviceName ∧ deviceName.length > 0 then st
  else if command = "/photo" then takePhoto st chat_id
  else if command = "/status" then sendStatus st chat_id
  else if command = "/menu" then sendMainMenu st chat_id
  else if command = "/config" then sendConfigMenu st chat_id
  else if strHasStart command "/edit_" then startEditMode st command chat_id
  else if command = "/confirm_edit" then confirmEdit st chat_id
  else if command = "/cancel" then cancelEdit st chat_id
  else if command = "/restart" then
    if getChatType st.config chat_id = "personal" then
      let st1 := sendMsg st chat_id "🔄 Restarting device...\n\n⏳ The device will be back online in about 30 seconds." ""
      let st2 := { st1 with now := st1.now + 1000 }
      { st2 with restartRequested := true }
    else
      sendMsg st chat_id "❌ Restart command only available in personal chat" ""
  else if command = "/info" then sendMsg st chat_id (infoText st chat_id) ""
  else if command = "/save_restart" then
    if getChatType st.config chat_id = "personal" then
      let st1 := saveConfigM st
      let st2 := sendMsg st1 chat_id "💾 Configuration saved!\n\n🔄 Restarting device to apply changes..." ""
      let st3 := { st2 with now := st2.now + 2000 }
      { st3 with restartRequested := true }
    else st
  else sendMsg st chat_id (helpText st command chat_id) ""

/-- `handleEditingInput(message, chat_id)`: timeout sweep, empty and
over-length input rejection, then the confirmation render. -/
def handleEditingInput (st : SysState) (message chat_id : String) : SysState :=
  if st.now - st.editingStartTime > EDITING_TIMEOUT then
    let st1 := resetEditingState st
    sendMsg st1 chat_id "⏰ Edit session timed out\n\n🔄 Please start the configuration edit again." ""
  else if message.length = 0 then
    sendMsg st chat_id "❌ Empty input not allowed\n\n📝 Please enter a valid value or cancel the edit." ""
  else if message.length > 100 then
    sendMsg st chat_id "❌ Input too long (max 100 characters)\n\n📝 Please enter a shorter value." ""
  else
    showEditConfirmation st message st.editingField chat_id

/-- `handleTelegramMessage(message, chat_id, userName)`: statistics
update, then editing-session routing or exact-command dispatch. -/
def handleTelegramMessage (st : SysState) (message chat_id _userName : String) : SysState :=
  let st1 := { st with stats := { st.stats with commandsProcessed := st.stats.commandsProcessed + 1 } }
  if st1.editingMode = true ∧ chat_id = st1.editingChatID then
    handleEditingInput st1 message chat_id
  else
    handleExactCommands st1 message chat_id

/-- A provisioning payload that parsed as a JSON object: each firmware
key is present (`some`) or absent (`none`). -/
structure BLEPayload where
  telegramToken : Option String
  wifiSSID : Option String
  wifiPassword : Option String
  friendlyName : Option String
  wifiSSID2 : Option String
  wifiPassword2 : Option String
  wifiSSID3 : Option String
  wifiPassword3 : Option String
  alertMsg : Option String
deriving DecidableEq, Repr

/-- The configuration-merge step of `processBLEConfiguration`: the
required keys, the optional display name, secondary and tertiary
network credentials and alert template, then `isConfigured = true` and
the `configVersion` bump.  (When `wifiSSID2`/`wifiSSID3` is present
without its password key the C code reads a null pointer; the model
reads the empty string.) -/
def mergeBLEConfig (c0 : SmartWitnessConfig) (p : BLEPayload) : SmartWitnessConfig :=
  let c := match p.friendlyName with
    | some fn => { c0 with friendlyName := strTake 63 fn }
    | none => c0
  let c := { c with
    telegramToken := strTake 127 (p.telegramToken.getD ""),
    wifiSSID0 := strTake 63 (p.wifiSSID.getD ""),
    wifiPassword0 := strTake 63 (p.wifiPassword.getD "") }
  let c := match p.wifiSSID2 with
    | some s2 => { c with wifiSSID1 := strTake 63 s2, wifiPassword1 := strTake 63 (p.wifiPassword2.getD "") }
    | none => c
  let c := match p.wifiSSID3 with
    | some s3 => { c with wifiSSID2 := strTake 63 s3, wifiPassword2 := strTake 63 (p.wifiPassword3.getD "") }
    | none => c
  let c := match p.alertMsg with
    | some m => { c with alertMsg := strTake 99 m }
    | none => c
  { c with isConfigured := true, configVersion := (c.configVersion + 1) % UINT32_MOD }

/-- `processBLEConfiguration(configData)`: `none` models a payload that
failed JSON parsing (`config_error_invalid_json`); a parsed payload
missing a required key (`telegramToken`, `wifiSSID`, `wifiPassword`)
yields `config_error_missing_fields` with no other effect; on success
the payload is merged, persisted, `config_received_restarting` is
notified, and after `delay(2000)` a restart is triggered. -/
def processBLEConfiguration (st : SysState) (payload : Option BLEPayload) : SysState :=
  match payload with
  | none => updateBLEStatus st "config_error_invalid_json"
  | some p =>
    if p.telegramToken = none ∨ p.wifiSSID = none ∨ p.wifiPassword = none then
      updateBLEStatus st "config_error_missing_fields"
    else
      let st1 := { st with config := mergeBLEConfig st.config p }
      let st2 := saveConfigM st1
      let st3 := updateBLEStatus st2 "config_received_restarting"
      let st4 := { st3 with now := st3.now + 2000 }
      { st4 with restartRequested := true }

/-- The initial-state decision at the end of `setup()`: when the loaded
config is not operation-valid, enter `NEED_CONFIG`, start BLE
(`initBLE`, `bleConfigStartTime`) and move to `BLE_CONFIG_PHASE`;
otherwise enter `NORMAL_OPERATION`.  The second component records the
successive assignments to `currentState`. -/
def setupInitialPhase (st : SysState) : SysState × List SystemState :=
  if hasValidConfig st.config = false then
    let st1 := { st with currentState := SystemState.NEED_CONFIG }
    let st2 := { st1 with bleStarted := true, bleConfigStartTime := st1.now }
    let st3 := { st2 with currentState := SystemState.BLE_CONFIG_PHASE }
    (st3, [SystemState.NEED_CONFIG, SystemState.BLE_CONFIG_PHASE])
  else
    ({ st with currentState := SystemState.NORMAL_OPERATION }, [SystemState.NORMAL_OPERATION])

/-- A configuration-mutating operation: a provisioning intake with a
parsed payload, or an edit-confirm request from a chat endpoint. -/
inductive CfgOp where
  | bleIntake (p : BLEPayload)
  | editConfirm (chat_id : String)
deriving DecidableEq, Repr

/-- Apply one configuration-mutating operation. -/
def applyCfgOp (st : SysState) : CfgOp → SysState
  | CfgOp.bleIntake p => processBLEConfiguration st (some p)
  | CfgOp.editConfirm chat_id => confirmEdit st chat_id

/-- The success condition of one operation at a given state: the
provisioning payload carries all required keys; the edit-confirm comes
from the open session's chat with a non-empty pending value for a
recognized field. -/
def cfgOpSuccessful (st : SysState) : CfgOp → Bool
  | CfgOp.bleIntake p => p.telegramToken.isSome && p.wifiSSID.isSome && p.wifiPassword.isSome
  | CfgOp.editConfirm chat_id =>
      st.editingMode && (st.editingChatID == chat_id)
        && (decide (st.pendingEditValue.length ≠ 0))
        && (applyEditField st.config st.editingField st.pendingEditValue).isSome

/-- Apply a sequence of configuration-mutating operations. -/
def applyCfgOps : SysState → List CfgOp → SysState
  | st, [] => st
  | st, op :: ops => applyCfgOps (applyCfgOp st op) ops

/-- Every operation of the sequence succeeds at the state where it is
applied. -/
def cfgOpsSuccessful : SysState → List CfgOp → Bool
  | _, [] => true
  | st, op :: ops => cfgOpSuccessful st op && cfgOpsSuccessful (applyCfgOp st op) ops

/-! ### Concrete states used to evaluate the model -/

/-- A fully provisioned configuration (owner chat `"111"`). -/
def baseConfig : SmartWitnessConfig :=
  { deviceName := "CAM42", friendlyName := "Cam", devicePIN := "123",
    wifiSSID0 := "Home", wifiSSID1 := "", wifiSSID2 := "",
    wifiPassword0 := "pw", wifiPassword1 := "", wifiPassword2 := "",
    telegramToken := "0123456789012345678901234567890123456789", telegramUser := "",
    personalChatId := "111", familiarChatId := "222", vecinalChatId := "333",
    alertMsg := "Smart Witness Alert", isConfigured := true, pinConfigured := false,
    configVersion := 5 }

/-- Fresh statistics, as after `initializeTelegramStats()`. -/
def zeroStats : TelegramStatistics := ⟨0, 0, 0, 0, "", 0, 0⟩

/-- A running device in `NORMAL_OPERATION` with a reliable transport. -/
def baseState : SysState :=
  { config := baseConfig, currentState := SystemState.NORMAL_OPERATION,
    editingMode := false, editingField := "", editingChatID := "",
    pendingEditValue := "", editingStartTime := 0, stats := zeroStats,
    lastMessageTime := 0, now := 1000000, botInit := true,
    transport := [true, true, true, true, true, true, true, true],
    cameraFrame := true, outbox := [], bleStatus := [], saveCount := 0,
    persisted := none, restartRequested := false, bleStarted := false,
    bleConfigStartTime := 0 }

/-- The C1 scenario run through the inbound message path: the owner
opens editing on the alert field, submits `"Intruder!"`, then sends the
confirm request (`/confirm_edit` callback) from the same chat. -/
def c1Trace : SysState :=
  let s1 := handleTelegramMessage baseState "/edit_alert,CAM42" "111" "Owner"
  let s2 := handleTelegramMessage s1 "Intruder!" "111" "Owner"
  handleTelegramMessage s2 "/confirm_edit,CAM42" "111" "Owner"

/-- A state with an editing session open for chat `"111"` on the alert
field with the candidate value `"Intruder!"` pending. -/
def pendingAlertState : SysState :=
  { baseState with
    editingMode := true, editingField := "edit_alert", editingChatID := "111",
    editingStartTime := 1000000, pendingEditValue := "Intruder!" }

/-- A state whose `uint32_t configVersion` is at its maximum, with an
editing session about to confirm a device-name change. -/
def wrapState : SysState :=
  { baseState with
    config := { baseConfig with configVersion := 4294967295 },
    editingMode := true, editingField := "edit_name", editingChatID := "111",
    editingStartTime := 1000000, pendingEditValue := "Porch Cam" }

/-- A configuration with every notification endpoint unset (the state
before provisioning). -/
def emptyEndpointsConfig : SmartWitnessConfig :=
  { baseConfig with personalChatId := "", familiarChatId := "", vecinalChatId := "" }

/-- A provisioning payload missing the `telegramToken` key. -/
def missingTokenPayload : BLEPayload :=
  ⟨none, some "Home", some "pw123456", none, none, none, none, none, none⟩

/-- An un-provisioned boot state (defaults: empty SSIDs, short token). -/
def needConfigState : SysState :=
  { baseState with
    config := { baseConfig with
      wifiSSID0 := "", wifiSSID1 := "", wifiSSID2 := "",
      telegramToken := "short", personalChatId := "" } }

/-- A state whose transport fails the first two attempts and succeeds
on the third. -/
def retryState : SysState :=
  { baseState with transport := [false, false, true] }

/-! ### Frame lemmas for the delivery layer -/

/-- `rateLimitWait` only moves the clock. -/
lemma rateLimitWait_eq (st : SysState) :
    rateLimitWait st =
      { st with now := st.now +
          (if st.now - st.lastMessageTime < MESSAGE_INTERVAL then
            MESSAGE_INTERVAL - (st.now - st.lastMessageTime) else 0) } := by
  unfold rateLimitWait
  split <;> simp

/-- Fields of the state untouched by one `safeSendMessage` call. -/
lemma sendMsg_frame (st : SysState) (c m k : String) :
    (sendMsg st c m k).config = st.config ∧
    (sendMsg st c m k).editingMode = st.editingMode ∧
    (sendMsg st c m k).editingField = st.editingField ∧
    (sendMsg st c m k).editingChatID = st.editingChatID ∧
    (sendMsg st c m k).pendingEditValue = st.pendingEditValue ∧
    (sendMsg st c m k).editingStartTime = st.editingStartTime ∧
    (sendMsg st c m k).saveCount = st.saveCount ∧
    (sendMsg st c m k).persisted = st.persisted ∧
    (sendMsg st c m k).currentState = st.currentState ∧
    (sendMsg st c m k).restartRequested = st.restartRequested ∧
    (sendMsg st c m k).bleStatus = st.bleStatus ∧
    (sendMsg st c m k).botInit = st.botInit ∧
    (sendMsg st c m k).cameraFrame = st.cameraFrame ∧
    (sendMsg st c m k).bleStarted = st.bleStarted := by
  unfold sendMsg safeSendMessage
  split
  · simp
  · rw [rateLimitWait_eq]
    dsimp only
    split <;> split <;> simp

@[simp] lemma sendMsg_config (st : SysState) (c m k : String) :
    (sendMsg st c m k).config = st.config := (sendMsg_frame st c m k).1

@[simp] lemma sendMsg_editingMode (st : SysState) (c m k : String) :
    (sendMsg st c m k).editingMode = st.editingMode := (sendMsg_frame st c m k).2.1

@[simp] lemma sendMsg_editingField (st : SysState) (c m k : String) :
    (sendMsg st c m k).editingField = st.editingField := (sendMsg_frame st c m k).2.2.1

@[simp] lemma sendMsg_editingChatID (st : SysState) (c m k : String) :
    (sendMsg st c m k).editingChatID = st.editingChatID := (sendMsg_frame st c m k).2.2.2.1

@[simp] lemma sendMsg_pendingEditValue (st : SysState) (c m k : String) :
    (sendMsg st c m k).pendingEditValue = st.pendingEditValue :=
  (sendMsg_frame st c m k).2.2.2.2.1

@[simp] lemma sendMsg_editingStartTime (st : SysState) (c m k : String) :
    (sendMsg st c m k).editingStartTime = st.editingStartTime :=
  (sendMsg_frame st c m k).2.2.2.2.2.1

@[simp] lemma sendMsg_saveCount (st : SysState) (c m k : String) :
    (sendMsg st c m k).saveCount = st.saveCount := (sendMsg_frame st c m k).2.2.2.2.2.2.1

@[simp] lemma sendMsg_persisted (st : SysState) (c m k : String) :
    (sendMsg st c m k).persisted = st.persisted := (sendMsg_frame st c m k).2.2.2.2.2.2.2.1

/-- When the bot handle exists, the reply text is issued to the caller. -/
lemma sendMsg_outbox (st : SysState) (c m k : String) (h : st.botInit = true) :
    (sendMsg st c m k).outbox = st.outbox ++ [(c, m)] := by
  unfold sendMsg safeSendMessage
  rw [if_neg (by simp [h])]
  rw [rateLimitWait_eq]
  dsimp only
  split <;> split <;> simp

/-- `sendConfigMenu` never changes the configuration. -/
@[simp] lemma sendConfigMenu_config (st : SysState) (chat_id : String) :
    (sendConfigMenu st chat_id).config = st.config := by
  unfold sendConfigMenu
  split <;> simp

/-- A recognized-field application never touches `configVersion`. -/
lemma applyEditField_configVersion (c : SmartWitnessConfig) (f v : String)
    (c' : SmartWitnessConfig) (h : applyEditField c f v = some c') :
    c'.configVersion = c.configVersion := by
  unfold applyEditField at h
  split_ifs at h <;> simp_all <;> subst h <;> rfl

/-- A successful `confirmEdit` sets `configVersion` to its successor
modulo `2^32`. -/
lemma confirmEdit_version (st : SysState) (chat_id : String)
    (h : cfgOpSuccessful st (CfgOp.editConfirm chat_id) = true) :
    (confirmEdit st chat_id).config.configVersion =
      (st.config.configVersion + 1) % UINT32_MOD := by
  unfold cfgOpSuccessful at h
  simp only [Bool.and_eq_true, beq_iff_eq, decide_eq_true_eq,
    Option.isSome_iff_exists] at h
  obtain ⟨⟨⟨hmode, hchat⟩, hpend⟩, c1, hc1⟩ := h
  unfold confirmEdit
  rw [if_neg (by simp [hmode, hchat])]
  rw [if_neg hpend]
  rw [hc1]
  dsimp only
  simp [resetEditingState, saveConfigM, applyEditField_configVersion _ _ _ _ hc1]

/-- The merge step always bumps `configVersion` by one modulo `2^32`. -/
lemma mergeBLEConfig_version (c : SmartWitnessConfig) (p : BLEPayload) :
    (mergeBLEConfig c p).configVersion = (c.configVersion + 1) % UINT32_MOD := by
  unfold mergeBLEConfig
  cases p.friendlyName <;> cases p.wifiSSID2 <;>
    cases p.wifiSSID3 <;> cases p.alertMsg <;> rfl

/-- A successful `processBLEConfiguration` sets `configVersion` to its
successor modulo `2^32`. -/
lemma processBLE_version (st : SysState) (p : BLEPayload)
    (h : cfgOpSuccessful st (CfgOp.bleIntake p) = true) :
    (processBLEConfiguration st (some p)).config.configVersion =
      (st.config.configVersion + 1) % UINT32_MOD := by
  unfold cfgOpSuccessful at h
  simp only [Bool.and_eq_true, Option.isSome_iff_exists] at h
  obtain ⟨⟨⟨t, ht⟩, s, hs⟩, w, hw⟩ := h
  unfold processBLEConfiguration
  dsimp only
  rw [if_neg (by simp [ht, hs, hw])]
  exact mergeBLEConfig_version st.config p

/-- Each successful configuration-mutating operation bumps
`configVersion` by one modulo `2^32`. -/
lemma applyCfgOp_version (st : SysState) (op : CfgOp)
    (h : cfgOpSuccessful st op = true) :
    (applyCfgOp st op).config.configVersion =
      (st.config.configVersion + 1) % UINT32_MOD := by
  cases op with
  | bleIntake p => exact processBLE_version st p h
  | editConfirm chat_id => exact confirmEdit_version st chat_id h

/-- The retry loop never runs the clock backwards. -/
lemma sendLoop_endTime_ge (fuel retryIdx : Nat) (tr : List Bool) (now : Nat) :
    now ≤ (sendLoop fuel retryIdx tr now).endTime := by
  induction fuel generalizing retryIdx tr now with
  | zero => simp [sendLoop]
  | succ n ih =>
    simp only [sendLoop]
    split
    · dsimp only
      omega
    · dsimp only
      have h := ih (retryIdx + 1) (popTransport tr).2 (now + 500 * retryIdx)
      omega

/-- With at most three retries left, the loop makes at most three
attempts and its backoff waits are `500ms × attempt index`. -/
lemma sendLoop3_spec (tr : List Bool) (now : Nat) :
    (sendLoop 3 0 tr now).attempts ≤ 3 ∧
    (sendLoop 3 0 tr now).waits =
      ((List.range (sendLoop 3 0 tr now).attempts).drop 1).map (fun i => 500 * i) := by
  rcases tr with _ | ⟨b1, tr1⟩
  · simp [sendLoop, popTransport, List.range_succ]
  · rcases tr1 with _ | ⟨b2, tr2⟩
    · cases b1 <;> simp [sendLoop, popTransport, List.range_succ]
    · rcases tr2 with _ | ⟨b3, tr3⟩
      · cases b1 <;> cases b2 <;> simp [sendLoop, popTransport, List.range_succ]
      · cases b1 <;> cases b2 <;> cases b3 <;>
          simp [sendLoop, popTransport, List.range_succ]

/-- After the rate-limit wait the clock is at least one spacing past
the previous baseline. -/
lemma rateLimitWait_now_ge (st : SysState) (h : st.lastMessageTime ≤ st.now) :
    st.lastMessageTime + MESSAGE_INTERVAL ≤ (rateLimitWait st).now := by
  rw [rateLimitWait_eq]
  unfold MESSAGE_INTERVAL
  dsimp only
  split <;> omega

/-- Core facts about a successful `safeSendMessage`: the new
minimum-spacing baseline equals the send time, which is at least one
spacing past the previous baseline; the sent counter and the
last-success timestamp are updated. -/
lemma safeSend_success_core (st : SysState) (c m k : String)
    (hinv : st.lastMessageTime ≤ st.now)
    (hok : (safeSendMessage st c m k).ok = true) :
    (safeSendMessage st c m k).st.lastMessageTime = (safeSendMessage st c m k).st.now ∧
    st.lastMessageTime + 1500 ≤ (safeSendMessage st c m k).st.lastMessageTime ∧
    (safeSendMessage st c m k).st.stats.totalMessagesSent = st.stats.totalMessagesSent + 1 ∧
    (safeSendMessage st c m k).st.stats.lastSuccessfulSend =
      (safeSendMessage st c m k).st.lastMessageTime := by
  unfold safeSendMessage at hok ⊢
  by_cases hb : st.botInit = false
  · rw [if_pos hb] at hok
    exact absurd hok (by simp)
  · rw [if_neg hb] at hok ⊢
    dsimp only at hok ⊢
    by_cases hs : (sendLoop 3 0 (rateLimitWait st).transport (rateLimitWait st).now).success = true
    · rw [if_pos hs] at hok ⊢
      refine ⟨rfl, ?_, ?_, rfl⟩
      · have h1 := rateLimitWait_now_ge st hinv
        have h2 := sendLoop_endTime_ge 3 0 (rateLimitWait st).transport (rateLimitWait st).now
        unfold MESSAGE_INTERVAL at h1
        dsimp only
        omega
      · have hst : (rateLimitWait st).stats = st.stats := by
          rw [rateLimitWait_eq]
        dsimp only
        rw [hst]
    · rw [if_neg hs] at hok
      exact absurd hok (by simp)

/-! ### Claim theorems -/

/-- Claim C1 (code evaluated at the failing input).  In the C1 scenario
— the owner opens editing on the alert field, submits `"Intruder!"`,
then sends the confirm request from the same chat — the claim expects
`alertMsg = "Intruder!"`, the session back to idle, and `configVersion`
incremented.  Instead the inbound-routing rule sends the confirm
message itself to the editing FSM, which stores it as a fresh candidate
value: the alert template is unchanged, the session is still open, the
pending value is now the literal text `"/confirm_edit,CAM42"`, the
version is unchanged — and the field id was recorded as
`"/edit_alert"` (with slash), which `confirmEdit`'s `"edit_alert"`
dispatch could never match anyway. -/
theorem c1_confirm_message_swallowed :
    c1Trace.config.alertMsg = "Smart Witness Alert" ∧
    c1Trace.editingMode = true ∧
    c1Trace.pendingEditValue = "/confirm_edit,CAM42" ∧
    c1Trace.editingField = "/edit_alert" ∧
    c1Trace.config.configVersion = baseState.config.configVersion ∧
    c1Trace.saveCount = 0 := by decide

/-- Claim C2, counterexample.  A command message carrying a foreign
device suffix is claimed to cause "no state change at all", but the
router increments the commands-processed statistics counter before the
device-identity check. -/
theorem c2_counterexample :
    handleTelegramMessage baseState "/photo,OTHERCAM" "999" "user" ≠ baseState := by decide

/-- Claim C2 as amended: when no editing session is open for the
caller's chat, an inbound command message carrying a non-empty
device-identity suffix different from this device's identity produces
no reply and no state change other than incrementing the
commands-processed statistics counter. -/
theorem c2_amended_silent_ignore (st : SysState) (message chat_id userName : String)
    (hroute : ¬(st.editingMode = true ∧ chat_id = st.editingChatID))
    (hne : (extractDeviceName message).length > 0)
    (hdiff : extractDeviceName message ≠ st.config.deviceName) :
    handleTelegramMessage st message chat_id userName =
      { st with stats := { st.stats with
          commandsProcessed := st.stats.commandsProcessed + 1 } } := by
  unfold handleTelegramMessage
  dsimp only
  rw [if_neg hroute]
  unfold handleExactCommands
  dsimp only
  rw [if_pos ⟨hdiff, hne⟩]

/-- Witness for C2's amended theorem at a concrete input. -/
theorem c2_amended_silent_ignore_witness :
    handleTelegramMessage baseState "/photo,OTHERCAM" "999" "user" =
      { baseState with stats := { baseState.stats with
          commandsProcessed := baseState.stats.commandsProcessed + 1 } } :=
  c2_amended_silent_ignore baseState "/photo,OTHERCAM" "999" "user"
    (by decide) (by decide) (by decide)

/-- Claim C4: while a session is open, a confirm or cancel from any
chat other than the opener — and, when no session is open, from any
chat at all — replies with the "No active editing session" error and
mutates neither the session variables nor the configuration nor the
persisted snapshot. -/
theorem c4_wrong_endpoint_rejected (st : SysState) (chat_id : String)
    (h : st.editingMode = false ∨ st.editingChatID ≠ chat_id) :
    ((confirmEdit st chat_id).config = st.config ∧
     (confirmEdit st chat_id).editingMode = st.editingMode ∧
     (confirmEdit st chat_id).editingField = st.editingField ∧
     (confirmEdit st chat_id).editingChatID = st.editingChatID ∧
     (confirmEdit st chat_id).pendingEditValue = st.pendingEditValue ∧
     (confirmEdit st chat_id).editingStartTime = st.editingStartTime ∧
     (confirmEdit st chat_id).saveCount = st.saveCount ∧
     (confirmEdit st chat_id).persisted = st.persisted ∧
     (st.botInit = true →
       (confirmEdit st chat_id).outbox = st.outbox ++
         [(chat_id, "❌ No active editing session\n\nPlease start a configuration edit first.")])) ∧
    ((cancelEdit st chat_id).config = st.config ∧
     (cancelEdit st chat_id).editingMode = st.editingMode ∧
     (cancelEdit st chat_id).editingField = st.editingField ∧
     (cancelEdit st chat_id).editingChatID = st.editingChatID ∧
     (cancelEdit st chat_id).pendingEditValue = st.pendingEditValue ∧
     (cancelEdit st chat_id).editingStartTime = st.editingStartTime ∧
     (cancelEdit st chat_id).saveCount = st.saveCount ∧
     (cancelEdit st chat_id).persisted = st.persisted ∧
     (st.botInit = true →
       (cancelEdit st chat_id).outbox = st.outbox ++
         [(chat_id, "❌ No active editing session")])) := by
  have hc : confirmEdit st chat_id =
      sendMsg st chat_id "❌ No active editing session\n\nPlease start a configuration edit first." "" := by
    unfold confirmEdit
    rw [if_pos h]
  have hx : cancelEdit st chat_id =
      sendMsg st chat_id "❌ No active editing session" "" := by
    unfold cancelEdit
    rw [if_pos h]
  rw [hc, hx]
  exact ⟨⟨by simp, by simp, by simp, by simp, by simp, by simp, by simp, by simp,
          fun hb => sendMsg_outbox st chat_id _ "" hb⟩,
         ⟨by simp, by simp, by simp, by simp, by simp, by simp, by simp, by simp,
          fun hb => sendMsg_outbox st chat_id _ "" hb⟩⟩

/-- Witness for C4 at a concrete input: a session is open for chat
`"111"`, the confirm comes from chat `"222"`. -/
theorem c4_wrong_endpoint_rejected_witness :
    (confirmEdit pendingAlertState "222").config = pendingAlertState.config ∧
    (confirmEdit pendingAlertState "222").editingMode = pendingAlertState.editingMode ∧
    (confirmEdit pendingAlertState "222").outbox = pendingAlertState.outbox ++
      [("222", "❌ No active editing session\n\nPlease start a configuration edit first.")] := by
  have h := c4_wrong_endpoint_rejected pendingAlertState "222" (by decide)
  exact ⟨h.1.1, h.1.2.1, h.1.2.2.2.2.2.2.2.2 (by decide)⟩

/-- Claim C5: `hasValidConfig` holds iff the device name is non-empty,
the PIN has the fixed length 3, some WiFi SSID slot is non-empty, the
Telegram token has at least 40 characters, and the personal (owner)
chat id is non-empty. -/
theorem c5_hasValidConfig_iff (c : SmartWitnessConfig) :
    hasValidConfig c = true ↔
      (c.deviceName.length ≠ 0 ∧ c.devicePIN.length = 3 ∧
       (c.wifiSSID0.length ≠ 0 ∨ c.wifiSSID1.length ≠ 0 ∨ c.wifiSSID2.length ≠ 0) ∧
       40 ≤ c.telegramToken.length ∧ c.personalChatId.length ≠ 0) := by
  unfold hasValidConfig
  dsimp only
  split_ifs <;> simp_all <;> omega

/-- Claim C8: a provisioning payload that parsed as the expected
structure but is missing a required key (`telegramToken`, `wifiSSID` or
`wifiPassword`) only emits `config_error_missing_fields` on the BLE
status channel: the configuration, the persisted snapshot, the
lifecycle state and everything else are unchanged. -/
theorem c8_missing_fields (st : SysState) (p : BLEPayload)
    (h : p.telegramToken = none ∨ p.wifiSSID = none ∨ p.wifiPassword = none) :
    processBLEConfiguration st (some p) =
      { st with bleStatus := st.bleStatus ++ ["config_error_missing_fields"] } := by
  unfold processBLEConfiguration updateBLEStatus
  dsimp only
  rw [if_pos h]

/-- Witness for C8 at a concrete input. -/
theorem c8_missing_fields_witness :
    processBLEConfiguration baseState (some missingTokenPayload) =
      { baseState with bleStatus := baseState.bleStatus ++ ["config_error_missing_fields"] } :=
  c8_missing_fields baseState missingTokenPayload (by decide)

/-- Claim C9: at boot, a non-operation-valid config sends the lifecycle
through `NEED_CONFIG`, starts the BLE provisioning transport and lands
in `BLE_CONFIG_PHASE`; an operation-valid config lands in
`NORMAL_OPERATION`. -/
theorem c9_boot_state (st : SysState) :
    (hasValidConfig st.config = false →
      (setupInitialPhase st).2 = [SystemState.NEED_CONFIG, SystemState.BLE_CONFIG_PHASE] ∧
      (setupInitialPhase st).1.currentState = SystemState.BLE_CONFIG_PHASE ∧
      (setupInitialPhase st).1.bleStarted = true) ∧
    (hasValidConfig st.config = true →
      (setupInitialPhase st).1.currentState = SystemState.NORMAL_OPERATION ∧
      (setupInitialPhase st).2 = [SystemState.NORMAL_OPERATION]) := by
  unfold setupInitialPhase
  constructor
  · intro h
    rw [if_pos h]
    exact ⟨rfl, rfl, rfl⟩
  · intro h
    rw [if_neg (by simp [h])]
    exact ⟨rfl, rfl⟩

/-- Witness for C9: the empty-defaults boot lands in provisioning, the
provisioned boot lands in normal operation. -/
theorem c9_boot_state_witness :
    ((setupInitialPhase needConfigState).2 =
        [SystemState.NEED_CONFIG, SystemState.BLE_CONFIG_PHASE] ∧
     (setupInitialPhase needConfigState).1.currentState = SystemState.BLE_CONFIG_PHASE ∧
     (setupInitialPhase needConfigState).1.bleStarted = true) ∧
    (setupInitialPhase baseState).1.currentState = SystemState.NORMAL_OPERATION :=
  ⟨(c9_boot_state needConfigState).1 (by decide),
   ((c9_boot_state baseState).2 (by decide)).1⟩

/-- Claim C10: `getChatType` matches the caller against the personal,
familiar and vecinal endpoints in that fixed order and returns the
first match, so any multiply-matching chat id gets the most privileged
matching role. -/
theorem c10_role_priority (c : SmartWitnessConfig) (chat_id : String) :
    (chat_id = c.personalChatId → getChatType c chat_id = "personal") ∧
    (chat_id ≠ c.personalChatId → chat_id = c.familiarChatId →
      getChatType c chat_id = "familiar") ∧
    (chat_id ≠ c.personalChatId → chat_id ≠ c.familiarChatId →
      chat_id = c.vecinalChatId → getChatType c chat_id = "vecinal") ∧
    (chat_id ≠ c.personalChatId → chat_id ≠ c.familiarChatId →
      chat_id ≠ c.vecinalChatId → getChatType c chat_id = "unknown") := by
  unfold getChatType
  refine ⟨?_, ?_, ?_, ?_⟩ <;> intros <;> simp_all

/-- Witness for C10: with all three endpoints equal (empty, as before
provisioning) the empty chat id is assigned the owner role. -/
theorem c10_role_priority_witness :
    getChatType emptyEndpointsConfig "" = "personal" :=
  (c10_role_priority emptyEndpointsConfig "").1 (by decide)

/-- Claim C3, counterexample.  `configVersion` is a `uint32_t`: a
successful edit-confirm at version `2^32 - 1` wraps the version to `0`,
so the claimed strict increase / never-decrease fails. -/
theorem c3_counterexample_wraparound :
    cfgOpSuccessful wrapState (CfgOp.editConfirm "111") = true ∧
    (confirmEdit wrapState "111").config.configVersion <
      wrapState.config.configVersion := by decide

/-- Claim C3 as amended: every successful provisioning intake and every
successful edit-confirm sets `configVersion` to its successor modulo
`2^32`; hence across any sequence of such operations the version grows
by exactly the number of operations — and is in particular strictly
increasing — as long as no `uint32` wraparound occurs. -/
theorem c3_amended_version_sequence (ops : List CfgOp) (st : SysState)
    (hsucc : cfgOpsSuccessful st ops = true)
    (hlt : st.config.configVersion < UINT32_MOD) :
    (applyCfgOps st ops).config.configVersion =
      (st.config.configVersion + ops.length) % UINT32_MOD ∧
    (st.config.configVersion + ops.length < UINT32_MOD →
      (applyCfgOps st ops).config.configVersion =
        st.config.configVersion + ops.length ∧
      (ops ≠ [] →
        st.config.configVersion < (applyCfgOps st ops).config.configVersion)) := by
  induction ops generalizing st with
  | nil =>
    refine ⟨?_, fun _ => ⟨?_, fun hne => absurd rfl hne⟩⟩ <;>
      simp [applyCfgOps, Nat.mod_eq_of_lt hlt]
  | cons op ops ih =>
    unfold cfgOpsSuccessful at hsucc
    rw [Bool.and_eq_true] at hsucc
    have hstep := applyCfgOp_version st op hsucc.1
    have hlt1 : (applyCfgOp st op).config.configVersion < UINT32_MOD := by
      rw [hstep]
      exact Nat.mod_lt _ (by unfold UINT32_MOD; omega)
    have ih1 := ih (applyCfgOp st op) hsucc.2 hlt1
    constructor
    · show (applyCfgOps (applyCfgOp st op) ops).config.configVersion = _
      rw [ih1.1, hstep, Nat.mod_add_mod]
      congr 1
      simp [List.length_cons]
      omega
    · intro hbound
      have hb1 : (applyCfgOp st op).config.configVersion + ops.length < UINT32_MOD := by
        rw [hstep, Nat.mod_eq_of_lt (by simp [List.length_cons] at hbound; omega)]
        simp [List.length_cons] at hbound
        omega
      have h2 := ih1.2 hb1
      constructor
      · show (applyCfgOps (applyCfgOp st op) ops).config.configVersion = _
        rw [h2.1, hstep, Nat.mod_eq_of_lt (by simp [List.length_cons] at hbound; omega)]
        simp [List.length_cons]
        omega
      · intro _
        show st.config.configVersion < (applyCfgOps (applyCfgOp st op) ops).config.configVersion
        rw [h2.1, hstep, Nat.mod_eq_of_lt (by simp [List.length_cons] at hbound; omega)]
        omega

/-- Witness for C3's amended theorem: one successful edit-confirm on a
version-5 configuration yields version 6. -/
theorem c3_amended_version_sequence_witness :
    (applyCfgOps pendingAlertState [CfgOp.editConfirm "111"]).config.configVersion =
      pendingAlertState.config.configVersion + 1 ∧
    pendingAlertState.config.configVersion <
      (applyCfgOps pendingAlertState [CfgOp.editConfirm "111"]).config.configVersion := by
  have h := c3_amended_version_sequence [CfgOp.editConfirm "111"] pendingAlertState
    (by decide) (by decide)
  have h2 := h.2 (by decide)
  exact ⟨h2.1, h2.2 (by decide)⟩

/-- Claim C6: a transport failing the first two attempts and succeeding
on the third makes `safeSendMessage` return true, leave the failed
counter alone and bump the sent counter by one; and in all cases at
most 3 transport attempts are made, with a backoff wait of
`500 ms × attempt index` before each retry. -/
theorem c6_retry_delivery :
    (∀ st chat msg kb rest, st.botInit = true →
      st.transport = false :: false :: true :: rest →
      ((safeSendMessage st chat msg kb).ok = true ∧
       (safeSendMessage st chat msg kb).st.stats.totalFailedSends =
         st.stats.totalFailedSends ∧
       (safeSendMessage st chat msg kb).st.stats.totalMessagesSent =
         st.stats.totalMessagesSent + 1 ∧
       (safeSendMessage st chat msg kb).attempts = 3 ∧
       (safeSendMessage st chat msg kb).waits = [500, 1000])) ∧
    (∀ st chat msg kb,
      (safeSendMessage st chat msg kb).attempts ≤ 3 ∧
      (safeSendMessage st chat msg kb).waits =
        ((List.range (safeSendMessage st chat msg kb).attempts).drop 1).map
          (fun i => 500 * i)) := by
  constructor
  · intro st chat msg kb rest hb htr
    have htr1 : (rateLimitWait st).transport = false :: false :: true :: rest := by
      rw [rateLimitWait_eq]
      exact htr
    have hst1 : (rateLimitWait st).stats = st.stats := by rw [rateLimitWait_eq]
    unfold safeSendMessage
    rw [if_neg (by simp [hb])]
    dsimp only
    rw [htr1]
    simp [sendLoop, popTransport, hst1]
  · intro st chat msg kb
    unfold safeSendMessage
    by_cases hb : st.botInit = false
    · rw [if_pos hb]
      simp
    · rw [if_neg hb]
      dsimp only
      have h := sendLoop3_spec (rateLimitWait st).transport (rateLimitWait st).now
      split <;> exact h

/-- Witness for C6 at a concrete input. -/
theorem c6_retry_delivery_witness :
    (safeSendMessage retryState "111" "hello" "").ok = true ∧
    (safeSendMessage retryState "111" "hello" "").st.stats.totalFailedSends =
      retryState.stats.totalFailedSends ∧
    (safeSendMessage retryState "111" "hello" "").st.stats.totalMessagesSent =
      retryState.stats.totalMessagesSent + 1 ∧
    (safeSendMessage retryState "111" "hello" "").attempts = 3 ∧
    (safeSendMessage retryState "111" "hello" "").waits = [500, 1000] :=
  c6_retry_delivery.1 retryState "111" "hello" "" [] (by decide) (by decide)

/-- Claim C7: a successful send records the new minimum-spacing
baseline (equal to the send-completion time), which lies at least
1500 ms past the previous baseline — so any two successful sends are at
least 1.5 s apart, the caller being blocked until the spacing elapses —
and updates the sent counter and last-success timestamp. -/
theorem c7_min_spacing (st : SysState) (chat msg kb : String)
    (hinv : st.lastMessageTime ≤ st.now)
    (hok : (safeSendMessage st chat msg kb).ok = true) :
    ((safeSendMessage st chat msg kb).st.lastMessageTime =
        (safeSendMessage st chat msg kb).st.now ∧
     st.lastMessageTime + 1500 ≤ (safeSendMessage st chat msg kb).st.lastMessageTime ∧
     (safeSendMessage st chat msg kb).st.stats.totalMessagesSent =
       st.stats.totalMessagesSent + 1 ∧
     (safeSendMessage st chat msg kb).st.stats.lastSuccessfulSend =
       (safeSendMessage st chat msg kb).st.lastMessageTime) ∧
    (∀ chat2 msg2 kb2,
      (safeSendMessage (safeSendMessage st chat msg kb).st chat2 msg2 kb2).ok = true →
      (safeSendMessage st chat msg kb).st.lastMessageTime + 1500 ≤
        (safeSendMessage (safeSendMessage st chat msg kb).st chat2 msg2 kb2).st.lastMessageTime) := by
  have hcore := safeSend_success_core st chat msg kb hinv hok
  refine ⟨hcore, fun chat2 msg2 kb2 hok2 => ?_⟩
  have hinv2 : (safeSendMessage st chat msg kb).st.lastMessageTime ≤
      (safeSendMessage st chat msg kb).st.now := le_of_eq hcore.1
  exact (safeSend_success_core (safeSendMessage st chat msg kb).st chat2 msg2 kb2
    hinv2 hok2).2.1

/-- Witness for C7 at a concrete input. -/
theorem c7_min_spacing_witness :
    (safeSendMessage baseState "111" "ping" "").st.lastMessageTime =
      (safeSendMessage baseState "111" "ping" "").st.now ∧
    baseState.lastMessageTime + 1500 ≤
      (safeSendMessage baseState "111" "ping" "").st.lastMessageTime := by
  have h := c7_min_spacing baseState "111" "ping" "" (by decide) (by decide)
  exact ⟨h.1.1, h.1.2.1⟩

end SmartWitness
